import Mathlib

/-!
Shallow embedding of the market-making engine's core numeric logic.

Conventions of the model:
* JavaScript `number` values are modelled as rationals (`ℚ`).  All inputs the
  theorems quantify over are finite by construction, which matches the code's
  own validation (adapters only yield positive, finite samples).
* JavaScript division by zero yields `NaN`/`Infinity`; in `ℚ` it yields `0`.
  No theorem below asserts anything about a field whose source computation
  divides by zero, except where the divisor is proved nonzero.
* `Date.now()` timestamps are natural numbers; `a - b` on `ℕ` matches the
  JS subtraction under the hypotheses `b ≤ a` used in the theorems.
* JS truthiness tests on numeric fields (`if (this.lastPrice)`,
  `if (this.triggeredAt)`) are modelled by explicit `Option`/`≠ 0` checks.
-/

namespace Oracle

/-- `PriceData` from `PriceAggregator.ts`. -/
structure PriceData where
  price : ℚ
  source : String
  confidence : ℚ
  timestamp : ℕ
deriving DecidableEq, Repr

/-- `AggregatedPrice` from `PriceAggregator.ts`. -/
structure AggregatedPrice where
  midPrice : ℚ
  bestBid : ℚ
  bestAsk : ℚ
  sources : List PriceData
  confidence : ℚ
  timestamp : ℕ
deriving DecidableEq, Repr

/-- `PriceAggregatorConfig` from `PriceAggregator.ts`. -/
structure PriceAggregatorConfig where
  cacheDurationMs : ℕ
  minSources : ℕ
  maxPriceDeviationPercent : ℚ
  spreadPercent : ℚ
  enableCircuitBreaker : Bool
  circuitBreakerThresholdPercent : ℚ
deriving DecidableEq, Repr

/-- Ascending numeric sort, the effect of `.sort((a, b) => a - b)`. -/
def sortAsc (l : List ℚ) : List ℚ :=
  List.insertionSort (· ≤ ·) l

/-- `calculateMedian` (PriceAggregator.ts lines 249-260): 0 on the empty
list, else middle element of the sorted list, or the mean of the two middle
elements for even length. -/
def calculateMedian (values : List ℚ) : ℚ :=
  if values.length = 0 then 0
  else
    let sorted := sortAsc values
    let mid := sorted.length / 2
    if sorted.length % 2 = 0 then (sorted.getD (mid - 1) 0 + sorted.getD mid 0) / 2
    else sorted.getD mid 0

/-- JS truthiness of the nullable numeric field `lastPrice`. -/
def truthyQ : Option ℚ → Bool
  | none => false
  | some p => decide (p ≠ 0)

/-- `createAggregatedPrice` (lines 265-282).  `confidence` is the mean of
the sources' confidences; for an empty source list the JS code produces
`NaN` where this model produces `0` — no theorem refers to the confidence
field in that case. -/
def createAggregatedPrice (cfg : PriceAggregatorConfig) (midPrice : ℚ)
    (sources : List PriceData) (now : ℕ) : AggregatedPrice :=
  let spreadHalf := cfg.spreadPercent / 100 / 2
  let avgConfidence := (sources.map (·.confidence)).sum / (sources.length : ℚ)
  { midPrice := midPrice
    bestBid := midPrice * (1 - spreadHalf)
    bestAsk := midPrice * (1 + spreadHalf)
    sources := sources
    confidence := avgConfidence
    timestamp := now }

/-- `createFallbackPrice` (lines 287-303). -/
def createFallbackPrice (cfg : PriceAggregatorConfig) (price : ℚ) (now : ℕ) :
    AggregatedPrice :=
  let spreadHalf := cfg.spreadPercent / 100 / 2
  { midPrice := price
    bestBid := price * (1 - spreadHalf)
    bestAsk := price * (1 + spreadHalf)
    sources := [{ price := price, source := "fallback", confidence := 0.5, timestamp := now }]
    confidence := 0.5
    timestamp := now }

/-- Relative deviation in percent, `Math.abs((x - m) / m) * 100`. -/
def relDeviationPct (x m : ℚ) : ℚ := |(x - m) / m| * 100

/-- First-pass median over all valid samples (lines 112-113). -/
def firstMedian (samples : List PriceData) : ℚ :=
  calculateMedian (sortAsc (samples.map (·.price)))

/-- The outlier filter (lines 116-119): keep samples whose relative
deviation from the first-pass median is at most the configured maximum. -/
def filteredSamples (cfg : PriceAggregatorConfig) (samples : List PriceData) :
    List PriceData :=
  samples.filter (fun p =>
    decide (relDeviationPct p.price (firstMedian samples) ≤ cfg.maxPriceDeviationPercent))

/-- Second-pass median over the surviving samples (lines 122-123). -/
def finalMedian (cfg : PriceAggregatorConfig) (samples : List PriceData) : ℚ :=
  calculateMedian (sortAsc ((filteredSamples cfg samples).map (·.price)))

/-- `Math.abs((finalMedian - lastPrice) / lastPrice) * 100` (line 127). -/
def priceChangePct (newPrice oldPrice : ℚ) : ℚ :=
  |(newPrice - oldPrice) / oldPrice| * 100

/-- The guard on lines 126-129: the dampening branch is taken iff the
breaker is enabled, `lastPrice` is truthy, and the change exceeds the
threshold. -/
def dampenTaken (cfg : PriceAggregatorConfig) (lastPrice : Option ℚ)
    (samples : List PriceData) : Bool :=
  cfg.enableCircuitBreaker && truthyQ lastPrice &&
    decide (priceChangePct (finalMedian cfg samples) (lastPrice.getD 0) >
      cfg.circuitBreakerThresholdPercent)

/-- The error message of the `throw` on line 108. -/
def insufficientMsg (available required : ℕ) : String :=
  "Insufficient price sources: " ++ toString available ++ "/" ++ toString required

/-- Result of one non-cached `getPrice` evaluation: the returned value (or
thrown error), the `lastPrice` field after the call, and the value written
to the cache (`none` when nothing was written). -/
structure FetchResult where
  output : Except String AggregatedPrice
  lastPrice : Option ℚ
  cacheWrite : Option AggregatedPrice
deriving Repr

/-- Lines 96-152 of `getPrice`: the path taken after the cache check, given
the list of valid samples collected from the adapters. -/
def getPriceFetch (cfg : PriceAggregatorConfig) (lastPrice : Option ℚ)
    (validPrices : List PriceData) (now : ℕ) : FetchResult :=
  if validPrices.length < cfg.minSources then
    if truthyQ lastPrice then
      { output := Except.ok (createFallbackPrice cfg (lastPrice.getD 0) now)
        lastPrice := lastPrice
        cacheWrite := none }
    else
      { output := Except.error (insufficientMsg validPrices.length cfg.minSources)
        lastPrice := lastPrice
        cacheWrite := none }
  else if dampenTaken cfg lastPrice validPrices then
    let lp := lastPrice.getD 0
    let dampenedPrice := lp * (if finalMedian cfg validPrices > lp then 1.2 else 0.8)
    { output := Except.ok (createAggregatedPrice cfg dampenedPrice
        (filteredSamples cfg validPrices) now)
      lastPrice := lastPrice
      cacheWrite := none }
  else
    let agg := createAggregatedPrice cfg (finalMedian cfg validPrices)
      (filteredSamples cfg validPrices) now
    { output := Except.ok agg
      lastPrice := some (finalMedian cfg validPrices)
      cacheWrite := some agg }

/-- The aggregator's mutable state for one pair: the cache entry and the
last accepted price. -/
structure AggregatorState where
  lastPrice : Option ℚ
  cache : Option AggregatedPrice

/-- `getPrice` (lines 63-152) including the cache check: `fetched` is the
list of valid samples the four adapter calls would produce. -/
def getPrice (cfg : PriceAggregatorConfig) (st : AggregatorState)
    (forceRefresh : Bool) (fetched : List PriceData) (now : ℕ) :
    Except String AggregatedPrice × AggregatorState :=
  let r := getPriceFetch cfg st.lastPrice fetched now
  let runFetch : Except String AggregatedPrice × AggregatorState :=
    (r.output,
      { lastPrice := r.lastPrice
        cache := match r.cacheWrite with
          | some a => some a
          | none => st.cache })
  if !forceRefresh then
    match st.cache with
    | some cached =>
      if now - cached.timestamp < cfg.cacheDurationMs then (Except.ok cached, st)
      else runFetch
    | none => runFetch
  else runFetch

end Oracle

namespace Breaker

/-- `CircuitBreakerConfig` from the circuit-breaker module. -/
structure CircuitBreakerConfig where
  priceDeviationThresholdPercent : ℚ
  volatilityThresholdPercent : ℚ
  lossThresholdPercent : ℚ
  consecutiveFailuresThreshold : ℕ
  cooldownPeriodMs : ℕ
  gradualResumeSteps : ℕ
  gradualResumeIntervalMs : ℕ
deriving DecidableEq, Repr

/-- `TriggerReason`; the `type` union is modelled as a string. -/
structure TriggerReason where
  type : String
  value : ℚ
  threshold : ℚ
  message : String
deriving DecidableEq, Repr

/-- The breaker's mutable fields (`isOpen`, `triggerReason`, `triggeredAt`,
`consecutiveFailures`, `resumeStep`, `priceHistory`). -/
structure BreakerState where
  isOpen : Bool
  triggerReason : Option TriggerReason
  triggeredAt : Option ℕ
  consecutiveFailures : ℕ
  resumeStep : ℕ
  priceHistory : List ℚ
deriving DecidableEq, Repr

/-- JS truthiness of the nullable timestamp `triggeredAt`. -/
def timeTruthy : Option ℕ → Bool
  | none => false
  | some t => decide (t ≠ 0)

/-- `trip` (lines 461-476): a no-op when already open, otherwise opens the
breaker and records the reason and the trip time. -/
def trip (s : BreakerState) (reason : TriggerReason) (now : ℕ) : BreakerState :=
  if s.isOpen then s
  else { s with isOpen := true, triggerReason := some reason, triggeredAt := some now }

/-- `manualTrip` (lines 481-488). -/
def manualTrip (s : BreakerState) (message : String) (now : ℕ) : BreakerState :=
  trip s { type := "manual", value := 0, threshold := 0, message := message } now

/-- `reset` (lines 493-522): a no-op when closed or when the cooldown has
not elapsed since the trip; otherwise clears all trip fields. -/
def reset (cfg : CircuitBreakerConfig) (s : BreakerState) (now : ℕ) : BreakerState :=
  if !s.isOpen then s
  else if timeTruthy s.triggeredAt &&
      decide (now - s.triggeredAt.getD 0 < cfg.cooldownPeriodMs) then s
  else { s with isOpen := false, triggerReason := none, triggeredAt := none,
                consecutiveFailures := 0, resumeStep := 0 }

/-- The `setInterval` body of `gradualResume` (lines 552-583), unrolled:
each tick increments `resumeStep`, invokes the per-step callback (whose
exception, `stepThrows` true, is caught and only logged), and after the
final step calls `reset` at the time the last tick fires.  Returns the
state after the loop and the number of callback invocations. -/
def resumeLoop (cfg : CircuitBreakerConfig) (stepThrows : ℕ → Bool)
    (s : BreakerState) (startTime : ℕ) (step count : ℕ) : BreakerState × ℕ :=
  let step' := step + 1
  -- the callback for tick `step'` runs here; a thrown error has no state effect
  let _ := stepThrows step'
  if cfg.gradualResumeSteps ≤ step' then
    (reset cfg { s with resumeStep := step' }
      (startTime + (count + 1) * cfg.gradualResumeIntervalMs), count + 1)
  else
    resumeLoop cfg stepThrows { s with resumeStep := step' } startTime step' (count + 1)
termination_by cfg.gradualResumeSteps - step
decreasing_by omega

/-- `gradualResume` (lines 527-584): refuses when the breaker is not open
or the cooldown has not elapsed, otherwise zeroes `resumeStep` and runs the
interval loop. -/
def gradualResume (cfg : CircuitBreakerConfig) (stepThrows : ℕ → Bool)
    (s : BreakerState) (now : ℕ) : BreakerState × ℕ :=
  if !s.isOpen then (s, 0)
  else if timeTruthy s.triggeredAt &&
      decide (now - s.triggeredAt.getD 0 < cfg.cooldownPeriodMs) then (s, 0)
  else resumeLoop cfg stepThrows { s with resumeStep := 0 } now 0 0

/-- `recordFailure`. -/
def recordFailure (s : BreakerState) : BreakerState :=
  { s with consecutiveFailures := s.consecutiveFailures + 1 }

/-- `recordSuccess`. -/
def recordSuccess (s : BreakerState) : BreakerState :=
  { s with consecutiveFailures := 0 }

/-- `isTradingAllowed`. -/
def isTradingAllowed (s : BreakerState) : Bool := !s.isOpen

end Breaker

namespace Maker

/-- The numeric and boolean fields of `MarketMakerConfig`; the two mint
`PublicKey` fields carry no decision logic and are omitted. -/
structure MarketMakerConfig where
  baseDecimals : ℕ
  quoteDecimals : ℕ
  spreadPercent : ℚ
  orderSize : ℚ
  inventorySkew : ℚ
  maxPositionSize : ℚ
  orderRefreshInterval : ℕ
  minSpreadPercent : ℚ
  enableVolatilityAdaptive : Bool
  maxLossPercent : ℚ
  maxSlippagePercent : ℚ
  volThresholdPercent : ℚ
  enableBidAskWalls : Bool
  wallDepthPercent : ℚ
  targetInventoryRatio : ℚ
deriving DecidableEq, Repr

/-- `Inventory`: `BN` token amounts as integers. -/
structure Inventory where
  base : ℤ
  quote : ℤ
  avgBuyPrice : ℚ
  lastUpdate : ℕ
deriving DecidableEq, Repr

/-- The numeric fields of `PlacedOrder`; key/mint/signature identity fields
carry no decision logic and are omitted. -/
structure PlacedOrder where
  inAmount : ℤ
  outAmount : ℤ
  price : ℚ
  timestamp : ℕ
deriving DecidableEq, Repr

/-- Fill side. -/
inductive Side where
  | buy
  | sell
deriving DecidableEq, Repr

/-- `BNMath.toUIAmountNumber`: token amount divided by `10 ^ decimals`. -/
def toUIAmountNumber (tokenAmount : ℤ) (decimals : ℕ) : ℚ :=
  (tokenAmount : ℚ) / 10 ^ decimals

/-- `updateInventoryOnFill` (part_004 lines 685-726), balance and cost-basis
effect.  On a buy the base balance grows by `outAmount`, the quote balance
shrinks by `inAmount`, and `avgBuyPrice` is recomputed exactly as in the
source (note: `newValue` multiplies the *post-fill* base amount by the fill
price); on a sell only the balances move. -/
def updateInventoryOnFill (cfg : MarketMakerConfig) (inv : Inventory)
    (side : Side) (order : PlacedOrder) (now : ℕ) : Inventory :=
  match side with
  | .buy =>
    let base' := inv.base + order.outAmount
    let quote' := inv.quote - order.inAmount
    let avg' :=
      if inv.avgBuyPrice = 0 then order.price
      else
        let newValue := toUIAmountNumber base' cfg.baseDecimals * order.price
        let oldValue := (toUIAmountNumber base' cfg.baseDecimals -
          toUIAmountNumber order.outAmount cfg.baseDecimals) * inv.avgBuyPrice
        (oldValue + newValue) / toUIAmountNumber base' cfg.baseDecimals
    { base := base', quote := quote', avgBuyPrice := avg', lastUpdate := now }
  | .sell =>
    { inv with base := inv.base - order.inAmount,
               quote := inv.quote + order.outAmount,
               lastUpdate := now }

/-- `calculateInventoryRatio` (lines 383-391). -/
def calculateInventoryRatio (cfg : MarketMakerConfig) (inv : Inventory)
    (midPrice : ℚ) : ℚ :=
  let baseValue := toUIAmountNumber inv.base cfg.baseDecimals * midPrice
  let quoteValue := toUIAmountNumber inv.quote cfg.quoteDecimals
  let totalValue := baseValue + quoteValue
  if totalValue = 0 then 0.5 else baseValue / totalValue

/-- The default branch of `calculateTargetPrices` (lines 356-381): base
spread, volatility scaling, the 1.3x inventory-skew widening (applied to
the single `spreadPercent` in both branches), the minimum-spread floor, and
the symmetric half-spread quote around the mid price. -/
def calculateTargetPrices (cfg : MarketMakerConfig) (volatilityFactor : ℚ)
    (inventoryRatio targetRatio midPrice : ℚ) : ℚ × ℚ :=
  let spread0 := cfg.spreadPercent / 100
  let spread1 := spread0 * (1 + volatilityFactor * 0.5)
  let spread2 :=
    if |inventoryRatio - targetRatio| > 0.1 then
      if inventoryRatio > targetRatio + 0.05 then spread1 * 1.3
      else if inventoryRatio < targetRatio - 0.05 then spread1 * 1.3
      else spread1
    else spread1
  let spread3 := max spread2 (cfg.minSpreadPercent / 100)
  (midPrice * (1 - spread3 / 2), midPrice * (1 + spread3 / 2))

end Maker

namespace Rug

/-- Risk level of `RugPullRisk`. -/
inductive RiskLevel where
  | low
  | medium
  | high
  | critical
deriving DecidableEq, Repr

/-- `LPStatus` from `RugPullDetector.ts`. -/
structure LPStatus where
  totalLiquidity : ℤ
  lpTokenSupply : ℤ
  lastChecked : ℕ
  changePercent : ℚ
  suspicious : Bool
deriving DecidableEq, Repr

/-- `SupplyChange` from `RugPullDetector.ts`. -/
structure SupplyChange where
  currentSupply : ℤ
  previousSupply : ℤ
  changePercent : ℚ
  timestamp : ℕ
  suspicious : Bool
deriving DecidableEq, Repr

/-- `HolderConcentration` from `RugPullDetector.ts`. -/
structure HolderConcentration where
  topHolderPercent : ℚ
  top10HolderPercent : ℚ
  totalHolders : ℕ
  suspicious : Bool
deriving DecidableEq, Repr

/-- `RugPullRisk`. -/
structure RugPullRisk where
  level : RiskLevel
  score : ℚ
  reasons : List String
  shouldExit : Bool
deriving DecidableEq, Repr

/-- The risk-level thresholds of `calculateRisk` (lines 404-414). -/
def riskLevelOf (score : ℚ) : RiskLevel :=
  if score ≥ 80 then .critical
  else if score ≥ 60 then .high
  else if score ≥ 40 then .medium
  else .low

/-- `calculateRisk` (RugPullDetector.ts lines 363-427).  The reason strings
use the exact-rational rendering of the percentages where the source uses
`toFixed(2)`; no theorem depends on the string contents. -/
def calculateRisk (autoExitOnDetection : Bool) (lp : LPStatus)
    (sc : SupplyChange) (hc : HolderConcentration) : RugPullRisk :=
  let lpScore : ℚ := if lp.suspicious then min (|lp.changePercent| * 2) 40 else 0
  let supplyScore : ℚ := if sc.suspicious then min (|sc.changePercent| * 1.5) 30 else 0
  let concentrationScore : ℚ :=
    if hc.suspicious then min (hc.topHolderPercent * 0.5) 30 else 0
  let score := lpScore + supplyScore + concentrationScore
  let reasons : List String :=
    (if lp.suspicious then ["LP decreased by " ++ toString |lp.changePercent| ++ "%"] else []) ++
    (if sc.suspicious then ["Supply changed by " ++ toString |sc.changePercent| ++ "%"] else []) ++
    (if hc.suspicious then ["Top holder owns " ++ toString hc.topHolderPercent ++ "%"] else [])
  let level := riskLevelOf score
  let shouldExit := autoExitOnDetection &&
    (decide (level = .critical) || decide (level = .high))
  { level := level, score := score, reasons := reasons, shouldExit := shouldExit }

end Rug

namespace Oracle

lemma sortAsc_perm (l : List ℚ) : List.Perm (sortAsc l) l :=
  List.perm_insertionSort _ l

lemma mem_of_mem_sortAsc {x : ℚ} {l : List ℚ} (h : x ∈ sortAsc l) : x ∈ l :=
  (sortAsc_perm l).subset h

lemma length_sortAsc (l : List ℚ) : (sortAsc l).length = l.length :=
  (sortAsc_perm l).length_eq

lemma getD_pos {s : List ℚ} (hmem : ∀ x ∈ s, 0 < x) {i : ℕ} (h : i < s.length) :
    0 < s.getD i 0 := by
  rw [List.getD_eq_getElem _ _ h]
  exact hmem _ (List.getElem_mem h)

/-- The median of a nonempty list of positive rationals is positive. -/
lemma calculateMedian_pos {l : List ℚ} (hne : l ≠ []) (hpos : ∀ x ∈ l, 0 < x) :
    0 < calculateMedian l := by
  have hlen0 : ¬ l.length = 0 := by
    simpa [List.length_eq_zero] using hne
  have hsmem : ∀ x ∈ sortAsc l, 0 < x := fun x hx => hpos x (mem_of_mem_sortAsc hx)
  have hslen : (sortAsc l).length = l.length := length_sortAsc l
  unfold calculateMedian
  rw [if_neg hlen0]
  have hlt : (sortAsc l).length / 2 < (sortAsc l).length := by omega
  have hlt' : (sortAsc l).length / 2 - 1 < (sortAsc l).length := by omega
  have h1 := getD_pos hsmem hlt
  have h2 := getD_pos hsmem hlt'
  dsimp only
  split
  · linarith
  · exact h1

/-- The second-pass median is positive whenever all samples are positive
and at least one sample survives the deviation filter. -/
lemma finalMedian_pos (cfg : PriceAggregatorConfig) (samples : List PriceData)
    (hpos : ∀ p ∈ samples, 0 < p.price)
    (hfil : filteredSamples cfg samples ≠ []) :
    0 < finalMedian cfg samples := by
  unfold finalMedian
  apply calculateMedian_pos
  · intro h
    apply hfil
    have hlen := length_sortAsc ((filteredSamples cfg samples).map (·.price))
    rw [h] at hlen
    simpa [List.length_eq_zero, List.map_eq_nil_iff] using hlen.symm
  · intro x hx
    have hx' := mem_of_mem_sortAsc hx
    obtain ⟨p, hp, rfl⟩ := List.mem_map.mp hx'
    exact hpos p (List.mem_filter.mp hp).1

end Oracle

namespace Breaker

/-- After entering the interval loop with an open breaker whose cooldown
elapsed by `startTime`, the loop runs `gradualResumeSteps - step` more
ticks and ends with the breaker cleared. -/
lemma resumeLoop_clears (cfg : CircuitBreakerConfig) (stepThrows : ℕ → Bool)
    (t : ℕ) : ∀ (d : ℕ) (s : BreakerState) (startTime step count : ℕ),
    s.isOpen = true → s.triggeredAt = some t → t ≠ 0 →
    cfg.cooldownPeriodMs ≤ startTime - t → step < cfg.gradualResumeSteps →
    cfg.gradualResumeSteps - step = d →
    resumeLoop cfg stepThrows s startTime step count =
      ({ isOpen := false, triggerReason := none, triggeredAt := none,
         consecutiveFailures := 0, resumeStep := 0,
         priceHistory := s.priceHistory }, count + d) := by
  intro d
  induction d with
  | zero =>
    intro s startTime step count _ _ _ _ hlt hd
    omega
  | succ n ih =>
    intro s startTime step count hopen htrig ht0 hcool hlt hd
    rw [resumeLoop]
    by_cases hfin : cfg.gradualResumeSteps ≤ step + 1
    · have hn0 : n = 0 := by omega
      have hcool' : ¬ (startTime + (count + 1) * cfg.gradualResumeIntervalMs - t <
          cfg.cooldownPeriodMs) := by
        have hmono : startTime - t ≤
            startTime + (count + 1) * cfg.gradualResumeIntervalMs - t :=
          Nat.sub_le_sub_right (Nat.le_add_right _ _) t
        omega
      have hreset : reset cfg { s with resumeStep := step + 1 }
          (startTime + (count + 1) * cfg.gradualResumeIntervalMs) =
          { isOpen := false, triggerReason := none, triggeredAt := none,
            consecutiveFailures := 0, resumeStep := 0,
            priceHistory := s.priceHistory } := by
        unfold reset
        simp [hopen, timeTruthy, htrig, ht0, hcool']
      rw [if_pos hfin, hreset]
      subst hn0
      rfl
    · have hlt' : step + 1 < cfg.gradualResumeSteps := by omega
      rw [if_neg hfin]
      have h := ih { s with resumeStep := step + 1 } startTime (step + 1) (count + 1)
        hopen htrig ht0 hcool hlt' (by omega)
      have harith : count + 1 + n = count + (n + 1) := by omega
      rw [h, harith]

end Breaker

namespace Breaker

/-- C5: for an Open breaker whose cooldown has elapsed, `gradualResume`
with `N ≥ 1` configured steps invokes the per-step callback exactly `N`
times and ends with the breaker Closed and `consecutiveFailures = 0`,
regardless of which step callbacks throw (a throwing step is caught and
logged, so the result does not depend on `stepThrows` at all). -/
theorem gradualResume_runs_all_steps_and_closes (cfg : CircuitBreakerConfig)
    (stepThrows : ℕ → Bool) (s : BreakerState) (now t : ℕ)
    (hopen : s.isOpen = true) (htrig : s.triggeredAt = some t) (ht0 : t ≠ 0)
    (hcool : cfg.cooldownPeriodMs ≤ now - t)
    (hsteps : 1 ≤ cfg.gradualResumeSteps) :
    gradualResume cfg stepThrows s now =
      ({ isOpen := false, triggerReason := none, triggeredAt := none,
         consecutiveFailures := 0, resumeStep := 0,
         priceHistory := s.priceHistory }, cfg.gradualResumeSteps) := by
  have hcool' : ¬ (now - t < cfg.cooldownPeriodMs) := by omega
  have hguard : (timeTruthy s.triggeredAt &&
      decide (now - s.triggeredAt.getD 0 < cfg.cooldownPeriodMs)) = false := by
    simp [timeTruthy, htrig, ht0, hcool']
  have h := resumeLoop_clears cfg stepThrows t cfg.gradualResumeSteps
    { s with resumeStep := 0 } now 0 0 hopen htrig ht0 hcool (by omega) (by omega)
  unfold gradualResume
  rw [if_neg (by simp [hopen] : ¬ ((!s.isOpen) = true)),
    if_neg (by simp [hguard] : ¬ ((timeTruthy s.triggeredAt &&
      decide (now - s.triggeredAt.getD 0 < cfg.cooldownPeriodMs)) = true))]
  simpa using h

/-- C5 witness: a breaker tripped at time 7 with a 5 ms cooldown, resumed
at time 20 with 3 configured steps, runs 3 callback invocations and closes,
even though callbacks 1 and 2 throw. -/
theorem gradualResume_runs_all_steps_and_closes_witness :
    gradualResume ⟨0, 0, 0, 4, 5, 3, 10⟩ (fun k => decide (k ≤ 2))
      ⟨true, some ⟨"loss", 12, 10, "loss exceeded"⟩, some 7, 2, 0, [1, 2]⟩ 20 =
      ({ isOpen := false, triggerReason := none, triggeredAt := none,
         consecutiveFailures := 0, resumeStep := 0, priceHistory := [1, 2] }, 3) :=
  gradualResume_runs_all_steps_and_closes ⟨0, 0, 0, 4, 5, 3, 10⟩
    (fun k => decide (k ≤ 2)) ⟨true, some ⟨"loss", 12, 10, "loss exceeded"⟩, some 7, 2, 0, [1, 2]⟩
    20 7 rfl rfl (by decide) (by decide) (by decide)

/-- C7: tripping an already-Open breaker is a no-op: the whole state —
in particular `triggeredAt` and `triggerReason` — is unchanged and the
breaker remains Open. -/
theorem trip_idempotent_when_open (s : BreakerState) (reason : TriggerReason)
    (now : ℕ) (hopen : s.isOpen = true) :
    trip s reason now = s := by
  unfold trip
  rw [if_pos hopen]

/-- C7 witness: re-tripping a concrete open breaker with a different
reason at a later time changes nothing. -/
theorem trip_idempotent_when_open_witness :
    trip ⟨true, some ⟨"manual", 0, 0, "halt"⟩, some 5, 2, 1, [3]⟩
      ⟨"volatility", 90, 50, "vol"⟩ 99 =
      ⟨true, some ⟨"manual", 0, 0, "halt"⟩, some 5, 2, 1, [3]⟩ :=
  trip_idempotent_when_open _ _ _ rfl

/-- C8: while the breaker is Open and the cooldown has not elapsed since
the trip, `reset` is a no-op (state unchanged, so the breaker stays Open
with all trip fields intact), and `gradualResume` likewise refuses to run
(no callback invocation, state unchanged). -/
theorem reset_noop_before_cooldown (cfg : CircuitBreakerConfig)
    (stepThrows : ℕ → Bool) (s : BreakerState) (now t : ℕ)
    (hopen : s.isOpen = true) (htrig : s.triggeredAt = some t) (ht0 : t ≠ 0)
    (hcool : now - t < cfg.cooldownPeriodMs) :
    reset cfg s now = s ∧ gradualResume cfg stepThrows s now = (s, 0) := by
  constructor
  · unfold reset
    simp [hopen, timeTruthy, htrig, ht0, hcool]
  · unfold gradualResume
    simp [hopen, timeTruthy, htrig, ht0, hcool]

/-- C8 witness: a breaker tripped at time 50 with a 100 ms cooldown is
untouched by `reset` and `gradualResume` at time 120. -/
theorem reset_noop_before_cooldown_witness :
    reset ⟨0, 0, 0, 4, 100, 3, 10⟩
      ⟨true, some ⟨"failures", 4, 4, "4 consecutive failures"⟩, some 50, 4, 0, []⟩ 120 =
      ⟨true, some ⟨"failures", 4, 4, "4 consecutive failures"⟩, some 50, 4, 0, []⟩ ∧
    gradualResume ⟨0, 0, 0, 4, 100, 3, 10⟩ (fun _ => false)
      ⟨true, some ⟨"failures", 4, 4, "4 consecutive failures"⟩, some 50, 4, 0, []⟩ 120 =
      (⟨true, some ⟨"failures", 4, 4, "4 consecutive failures"⟩, some 50, 4, 0, []⟩, 0) :=
  reset_noop_before_cooldown ⟨0, 0, 0, 4, 100, 3, 10⟩ (fun _ => false)
    ⟨true, some ⟨"failures", 4, 4, "4 consecutive failures"⟩, some 50, 4, 0, []⟩
    120 50 rfl rfl (by decide) (by decide)

end Breaker

namespace Maker

/-- A configuration with 1% base spread use in the quoting scenarios:
0-decimal amounts, 0.5% minimum spread, 50% target inventory ratio. -/
def scenarioConfig : MarketMakerConfig :=
  { baseDecimals := 0
    quoteDecimals := 0
    spreadPercent := 1
    orderSize := 1
    inventorySkew := 0.2
    maxPositionSize := 1000
    orderRefreshInterval := 1000
    minSpreadPercent := 0.5
    enableVolatilityAdaptive := false
    maxLossPercent := 10
    maxSlippagePercent := 1
    volThresholdPercent := 5
    enableBidAskWalls := false
    wallDepthPercent := 2
    targetInventoryRatio := 0.5 }

/-- C3: evaluation of `updateInventoryOnFill` at the failing input of the
inventory round-trip property.  A first buy of size 1 at price 1 on empty
inventory sets `avgBuyPrice = 1` as specified, but a second buy of size 1
at the same price `p' = 1` yields `avgBuyPrice = 3/2`, not the
value-weighted average `(p + p')/2 = 1`: the code multiplies the
*post-fill* base amount by the fill price when forming `newValue`. -/
theorem updateInventoryOnFill_second_buy_breaks_weighted_average :
    (updateInventoryOnFill scenarioConfig ⟨0, 10, 0, 0⟩ .buy ⟨1, 1, 1, 0⟩ 0).avgBuyPrice = 1 ∧
    (updateInventoryOnFill scenarioConfig
      (updateInventoryOnFill scenarioConfig ⟨0, 10, 0, 0⟩ .buy ⟨1, 1, 1, 0⟩ 0)
      .buy ⟨1, 1, 1, 1⟩ 1).avgBuyPrice = 3 / 2 ∧
    (3 / 2 : ℚ) ≠ (1 + 1) / 2 := by
  refine ⟨rfl, ?_, by norm_num⟩
  norm_num [updateInventoryOnFill, toUIAmountNumber, scenarioConfig]

end Maker

namespace Maker

/-- C4 counterexample: mid-price 100, base spread 1%, volatility factor 0
gives bid 99.5 / ask 100.5, but with inventory 80% base against a 50%
target the bid does NOT tighten — it widens to 99.35 — and the total
spread is NOT unchanged — it grows from 1 to 1.3 — because the 1.3x skew
multiplier is applied to the single shared spread, symmetrically. -/
theorem calculateTargetPrices_skew_is_symmetric_counterexample :
    calculateTargetPrices scenarioConfig 0 0.5 0.5 100 = (99.5, 100.5) ∧
    calculateTargetPrices scenarioConfig 0 0.8 0.5 100 = (99.35, 100.65) ∧
    ¬ (99.5 ≤ (calculateTargetPrices scenarioConfig 0 0.8 0.5 100).1) ∧
    (calculateTargetPrices scenarioConfig 0 0.8 0.5 100).2 -
        (calculateTargetPrices scenarioConfig 0 0.8 0.5 100).1 ≠
      (calculateTargetPrices scenarioConfig 0 0.5 0.5 100).2 -
        (calculateTargetPrices scenarioConfig 0 0.5 0.5 100).1 := by
  refine ⟨?_, ?_, ?_, ?_⟩ <;>
    norm_num [calculateTargetPrices, scenarioConfig, abs_of_nonneg, abs_of_pos]

/-- C4 (amended): the inventory-skew adjustment is symmetric, not
asymmetric.  The balanced scenario still gives bid 99.5 / ask 100.5, and
whenever the inventory ratio exceeds the target by more than the 0.1
tolerance (and the minimum-spread floor is not binding) the whole spread
is multiplied by 1.3 and applied half to each side, so both the bid and
the ask move away from the mid price by the same widened half-spread and
the quotes stay equidistant from the mid price. -/
theorem calculateTargetPrices_skew_widens_both_sides (cfg : MarketMakerConfig)
    (v r t m : ℚ) (hskew : 0.1 < r - t)
    (hfloor : cfg.minSpreadPercent / 100 ≤ cfg.spreadPercent / 100 * (1 + v * 0.5) * 1.3) :
    calculateTargetPrices scenarioConfig 0 0.5 0.5 100 = (99.5, 100.5) ∧
    calculateTargetPrices cfg v r t m =
      (m * (1 - cfg.spreadPercent / 100 * (1 + v * 0.5) * 1.3 / 2),
       m * (1 + cfg.spreadPercent / 100 * (1 + v * 0.5) * 1.3 / 2)) ∧
    (calculateTargetPrices cfg v r t m).1 + (calculateTargetPrices cfg v r t m).2 = 2 * m := by
  have habs : |r - t| > (0.1 : ℚ) := by
    rw [abs_of_pos (by linarith)]
    exact hskew
  have hgt : r > t + 0.05 := by linarith
  have hcalc : calculateTargetPrices cfg v r t m =
      (m * (1 - cfg.spreadPercent / 100 * (1 + v * 0.5) * 1.3 / 2),
       m * (1 + cfg.spreadPercent / 100 * (1 + v * 0.5) * 1.3 / 2)) := by
    simp only [calculateTargetPrices]
    rw [if_pos habs, if_pos hgt, max_eq_left hfloor]
  refine ⟨by norm_num [calculateTargetPrices, scenarioConfig], hcalc, ?_⟩
  rw [hcalc]
  ring

/-- C4 witness: the amended statement at the concrete 80%/50% scenario. -/
theorem calculateTargetPrices_skew_widens_both_sides_witness :
    calculateTargetPrices scenarioConfig 0 0.5 0.5 100 = (99.5, 100.5) ∧
    calculateTargetPrices scenarioConfig 0 0.8 0.5 100 =
      (100 * (1 - (1 : ℚ) / 100 * (1 + 0 * 0.5) * 1.3 / 2),
       100 * (1 + (1 : ℚ) / 100 * (1 + 0 * 0.5) * 1.3 / 2)) ∧
    (calculateTargetPrices scenarioConfig 0 0.8 0.5 100).1 +
      (calculateTargetPrices scenarioConfig 0 0.8 0.5 100).2 = 2 * 100 :=
  calculateTargetPrices_skew_widens_both_sides scenarioConfig 0 0.8 0.5 100
    (by norm_num) (by norm_num [scenarioConfig])

end Maker

namespace Rug

lemma riskLevelOf_critical_iff (x : ℚ) : riskLevelOf x = .critical ↔ 80 ≤ x := by
  unfold riskLevelOf
  split_ifs with h1 h2 h3
  · simpa using h1
  · constructor
    · intro h
      exact absurd h (by simp)
    · intro h
      exact absurd h h1
  · constructor
    · intro h
      exact absurd h (by simp)
    · intro h
      exact absurd h h1
  · constructor
    · intro h
      exact absurd h (by simp)
    · intro h
      exact absurd h h1

lemma riskLevelOf_high_iff (x : ℚ) : riskLevelOf x = .high ↔ 60 ≤ x ∧ x < 80 := by
  unfold riskLevelOf
  split_ifs with h1 h2 h3
  · constructor
    · intro h
      exact absurd h (by simp)
    · intro h
      linarith [h.2]
  · simp only [true_iff]
    exact ⟨h2, by linarith⟩
  · constructor
    · intro h
      exact absurd h (by simp)
    · intro h
      exact absurd h.1 h2
  · constructor
    · intro h
      exact absurd h (by simp)
    · intro h
      exact absurd h.1 h2

lemma riskLevelOf_medium_iff (x : ℚ) : riskLevelOf x = .medium ↔ 40 ≤ x ∧ x < 60 := by
  unfold riskLevelOf
  split_ifs with h1 h2 h3
  · constructor
    · intro h
      exact absurd h (by simp)
    · intro h
      linarith [h.2]
  · constructor
    · intro h
      exact absurd h (by simp)
    · intro h
      linarith [h.2]
  · simp only [true_iff]
    exact ⟨h3, by linarith⟩
  · constructor
    · intro h
      exact absurd h (by simp)
    · intro h
      exact absurd h.1 h3

lemma riskLevelOf_low_iff (x : ℚ) : riskLevelOf x = .low ↔ x < 40 := by
  unfold riskLevelOf
  split_ifs with h1 h2 h3
  · constructor
    · intro h
      exact absurd h (by simp)
    · intro h
      linarith
  · constructor
    · intro h
      exact absurd h (by simp)
    · intro h
      linarith
  · constructor
    · intro h
      exact absurd h (by simp)
    · intro h
      linarith
  · simp only [true_iff]
    linarith [not_le.mp h3]

lemma calculateRisk_level_eq (ae : Bool) (lp : LPStatus) (sc : SupplyChange)
    (hc : HolderConcentration) :
    (calculateRisk ae lp sc hc).level = riskLevelOf (calculateRisk ae lp sc hc).score :=
  rfl

lemma calculateRisk_shouldExit_eq (ae : Bool) (lp : LPStatus) (sc : SupplyChange)
    (hc : HolderConcentration) :
    (calculateRisk ae lp sc hc).shouldExit =
      (ae && (decide ((calculateRisk ae lp sc hc).level = .critical) ||
        decide ((calculateRisk ae lp sc hc).level = .high))) :=
  rfl

/-- C9: the risk scenario — LP down 25% and flagged, supply unchanged and
unflagged, top holder at 60% and flagged — scores 40 + 0 + 30 = 70, which
is level High, with `shouldExit` equal to the auto-exit flag; and in
general the level is Critical iff score ≥ 80, High iff 60 ≤ score < 80,
Medium iff 40 ≤ score < 60, Low otherwise, with `shouldExit` true iff
auto-exit is enabled and the level is High or Critical. -/
theorem calculateRisk_scenario_and_thresholds (ae : Bool) (lp : LPStatus)
    (sc : SupplyChange) (hc : HolderConcentration) :
    ((calculateRisk ae ⟨750, 750, 0, -25, true⟩ ⟨1000, 1000, 0, 0, false⟩
        ⟨60, 70, 20, true⟩).score = 70 ∧
      (calculateRisk ae ⟨750, 750, 0, -25, true⟩ ⟨1000, 1000, 0, 0, false⟩
        ⟨60, 70, 20, true⟩).level = .high ∧
      (calculateRisk ae ⟨750, 750, 0, -25, true⟩ ⟨1000, 1000, 0, 0, false⟩
        ⟨60, 70, 20, true⟩).shouldExit = ae) ∧
    ((calculateRisk ae lp sc hc).level = .critical ↔ 80 ≤ (calculateRisk ae lp sc hc).score) ∧
    ((calculateRisk ae lp sc hc).level = .high ↔
      60 ≤ (calculateRisk ae lp sc hc).score ∧ (calculateRisk ae lp sc hc).score < 80) ∧
    ((calculateRisk ae lp sc hc).level = .medium ↔
      40 ≤ (calculateRisk ae lp sc hc).score ∧ (calculateRisk ae lp sc hc).score < 60) ∧
    ((calculateRisk ae lp sc hc).level = .low ↔ (calculateRisk ae lp sc hc).score < 40) ∧
    ((calculateRisk ae lp sc hc).shouldExit = true ↔
      ae = true ∧ ((calculateRisk ae lp sc hc).level = .high ∨
        (calculateRisk ae lp sc hc).level = .critical)) := by
  have hscore : (calculateRisk ae ⟨750, 750, 0, -25, true⟩ ⟨1000, 1000, 0, 0, false⟩
      ⟨60, 70, 20, true⟩).score = 70 := by
    norm_num [calculateRisk]
  have hlevel : (calculateRisk ae ⟨750, 750, 0, -25, true⟩ ⟨1000, 1000, 0, 0, false⟩
      ⟨60, 70, 20, true⟩).level = .high := by
    rw [calculateRisk_level_eq, hscore, riskLevelOf_high_iff]
    norm_num
  refine ⟨⟨hscore, hlevel, ?_⟩, ?_, ?_, ?_, ?_, ?_⟩
  · rw [calculateRisk_shouldExit_eq, hlevel]
    simp
  · rw [calculateRisk_level_eq]
    exact riskLevelOf_critical_iff _
  · rw [calculateRisk_level_eq]
    exact riskLevelOf_high_iff _
  · rw [calculateRisk_level_eq]
    exact riskLevelOf_medium_iff _
  · rw [calculateRisk_level_eq]
    exact riskLevelOf_low_iff _
  · rw [calculateRisk_shouldExit_eq]
    simp [or_comm]

end Rug

namespace Oracle

def oracleCfg : PriceAggregatorConfig := ⟨0, 2, 10, 1, false, 50⟩

def outlierPair : List PriceData :=
  [⟨1, "jupiter", 0.9, 0⟩, ⟨100, "pyth", 0.95, 0⟩]

lemma outlierPair_firstMedian : firstMedian outlierPair = 101 / 2 := by
  norm_num [firstMedian, outlierPair, calculateMedian, sortAsc,
    List.insertionSort, List.orderedInsert, List.getD]

lemma outlierPair_filtered : filteredSamples oracleCfg outlierPair = [] := by
  have habs : decide (|(99 : ℚ) / 101| * 100 ≤ 10) = false := by
    have h : ¬ (|(99 : ℚ) / 101| * 100 ≤ 10) := by
      rw [abs_of_nonneg (by norm_num)]
      norm_num
    simpa using h
  simp only [filteredSamples, outlierPair_firstMedian]
  norm_num [outlierPair, oracleCfg, relDeviationPct, List.filter]
  simp [habs]

lemma outlierPair_finalMedian : finalMedian oracleCfg outlierPair = 0 := by
  simp only [finalMedian, outlierPair_filtered]
  norm_num [calculateMedian, sortAsc, List.insertionSort]

/-- C1 counterexample: with `minSources = 2`, deviation threshold 10% and
two valid positive samples 1 and 100, both samples deviate about 98% from
the first-pass median 50.5, the filter removes everything, and the median
of the empty remainder is 0 — so `getPrice` returns `midPrice = 0` with
`bestBid = bestAsk = 0`, violating `bestBid < midPrice < bestAsk` and
strict positivity despite `minSources` valid samples. -/
theorem getPriceFetch_zero_mid_counterexample :
    ((getPriceFetch oracleCfg none outlierPair 0).output.map
      (fun a => (a.midPrice, a.bestBid, a.bestAsk))) = Except.ok (0, 0, 0) := by
  have hlen : ¬ (outlierPair.length < oracleCfg.minSources) := by
    norm_num [outlierPair, oracleCfg]
  have hdamp : dampenTaken oracleCfg none outlierPair = false := rfl
  simp only [getPriceFetch, hlen, if_false, hdamp, Bool.false_eq_true,
    outlierPair_finalMedian, outlierPair_filtered]
  norm_num [createAggregatedPrice, Except.map]

def specSamples : List PriceData :=
  [⟨1, "jupiter", 0.9, 0⟩, ⟨1.01, "pyth", 0.95, 0⟩,
   ⟨0.99, "birdeye", 0.85, 0⟩, ⟨5, "dexscreener", 0.8, 0⟩]

lemma specSamples_firstMedian : firstMedian specSamples = 201 / 200 := by
  norm_num [firstMedian, specSamples, calculateMedian, sortAsc,
    List.insertionSort, List.orderedInsert, List.getD]

lemma specSamples_filtered :
    filteredSamples oracleCfg specSamples =
      [⟨1, "jupiter", 0.9, 0⟩, ⟨1.01, "pyth", 0.95, 0⟩, ⟨0.99, "birdeye", 0.85, 0⟩] := by
  have h1 : decide (|(1 : ℚ) / 201| * 100 ≤ 10) = true :=
    decide_eq_true (by rw [abs_of_nonneg (by norm_num)]; norm_num)
  have h3 : decide (|(1 : ℚ) / 67| * 100 ≤ 10) = true :=
    decide_eq_true (by rw [abs_of_nonneg (by norm_num)]; norm_num)
  have h4 : decide (|(799 : ℚ) / 201| * 100 ≤ 10) = false :=
    decide_eq_false (by rw [abs_of_nonneg (by norm_num)]; norm_num)
  simp only [filteredSamples, relDeviationPct, specSamples_firstMedian]
  simp only [specSamples, oracleCfg, List.filter]
  norm_num
  simp only [h1, h3, h4]

lemma specSamples_finalMedian : finalMedian oracleCfg specSamples = 1 := by
  simp only [finalMedian, specSamples_filtered]
  norm_num [calculateMedian, sortAsc, List.insertionSort, List.orderedInsert, List.getD]

/-- C1 (amended): whenever at least `minSources` valid (positive) samples
arrive, at least one sample survives the deviation filter, the dampening
guard does not fire, and the configured spread is positive, `getPrice`
returns an `AggregatedPrice` whose `midPrice` is exactly the two-pass
filtered median, strictly positive, and strictly between `bestBid` and
`bestAsk`. -/
theorem getPriceFetch_two_pass_median (cfg : PriceAggregatorConfig)
    (lastPrice : Option ℚ) (samples : List PriceData) (now : ℕ)
    (hmin : cfg.minSources ≤ samples.length)
    (hpos : ∀ p ∈ samples, 0 < p.price)
    (hfil : filteredSamples cfg samples ≠ [])
    (hdamp : dampenTaken cfg lastPrice samples = false)
    (hspread : 0 < cfg.spreadPercent) :
    (getPriceFetch cfg lastPrice samples now).output =
      Except.ok (createAggregatedPrice cfg (finalMedian cfg samples)
        (filteredSamples cfg samples) now) ∧
    (createAggregatedPrice cfg (finalMedian cfg samples)
      (filteredSamples cfg samples) now).midPrice = finalMedian cfg samples ∧
    0 < (createAggregatedPrice cfg (finalMedian cfg samples)
      (filteredSamples cfg samples) now).midPrice ∧
    (createAggregatedPrice cfg (finalMedian cfg samples)
        (filteredSamples cfg samples) now).bestBid <
      (createAggregatedPrice cfg (finalMedian cfg samples)
        (filteredSamples cfg samples) now).midPrice ∧
    (createAggregatedPrice cfg (finalMedian cfg samples)
        (filteredSamples cfg samples) now).midPrice <
      (createAggregatedPrice cfg (finalMedian cfg samples)
        (filteredSamples cfg samples) now).bestAsk := by
  have hm : 0 < finalMedian cfg samples := finalMedian_pos cfg samples hpos hfil
  have hhalf : 0 < cfg.spreadPercent / 100 / 2 := by positivity
  have hprod : 0 < finalMedian cfg samples * (cfg.spreadPercent / 100 / 2) :=
    mul_pos hm hhalf
  refine ⟨?_, rfl, hm, ?_, ?_⟩
  · unfold getPriceFetch
    rw [if_neg (by omega), if_neg (by simp [hdamp])]
  · show finalMedian cfg samples * (1 - cfg.spreadPercent / 100 / 2) < finalMedian cfg samples
    nlinarith
  · show finalMedian cfg samples < finalMedian cfg samples * (1 + cfg.spreadPercent / 100 / 2)
    nlinarith

/-- C1 witness: the spec's own example — samples 1.00, 1.01, 0.99, 5.00
with a 10% deviation threshold and `minSources = 2` — where the outlier
5.00 is filtered out and the two-pass median is exactly 1. -/
theorem getPriceFetch_two_pass_median_witness :
    (getPriceFetch oracleCfg none specSamples 0).output =
      Except.ok (createAggregatedPrice oracleCfg (finalMedian oracleCfg specSamples)
        (filteredSamples oracleCfg specSamples) 0) ∧
    (createAggregatedPrice oracleCfg (finalMedian oracleCfg specSamples)
      (filteredSamples oracleCfg specSamples) 0).midPrice = finalMedian oracleCfg specSamples ∧
    0 < (createAggregatedPrice oracleCfg (finalMedian oracleCfg specSamples)
      (filteredSamples oracleCfg specSamples) 0).midPrice ∧
    (createAggregatedPrice oracleCfg (finalMedian oracleCfg specSamples)
        (filteredSamples oracleCfg specSamples) 0).bestBid <
      (createAggregatedPrice oracleCfg (finalMedian oracleCfg specSamples)
        (filteredSamples oracleCfg specSamples) 0).midPrice ∧
    (createAggregatedPrice oracleCfg (finalMedian oracleCfg specSamples)
        (filteredSamples oracleCfg specSamples) 0).midPrice <
      (createAggregatedPrice oracleCfg (finalMedian oracleCfg specSamples)
        (filteredSamples oracleCfg specSamples) 0).bestAsk :=
  getPriceFetch_two_pass_median oracleCfg none specSamples 0
    (by norm_num [oracleCfg, specSamples])
    (by norm_num [specSamples])
    (by rw [specSamples_filtered]; simp)
    rfl
    (by norm_num [oracleCfg])

def dampenCfg : PriceAggregatorConfig := ⟨0, 1, 1000, 1, true, 20⟩

def jumpSample : List PriceData := [⟨150, "jupiter", 0.9, 0⟩]

lemma jumpSample_finalMedian : finalMedian dampenCfg jumpSample = 150 := by
  have hfirst : firstMedian jumpSample = 150 := by
    norm_num [firstMedian, jumpSample, calculateMedian, sortAsc,
      List.insertionSort, List.orderedInsert, List.getD]
  have hfil : filteredSamples dampenCfg jumpSample = jumpSample := by
    simp only [filteredSamples, relDeviationPct, hfirst]
    simp only [jumpSample, dampenCfg, List.filter]
    norm_num
  simp only [finalMedian, hfil]
  norm_num [jumpSample, calculateMedian, sortAsc, List.insertionSort,
    List.orderedInsert, List.getD]

lemma jumpSample_dampens : dampenTaken dampenCfg (some 100) jumpSample = true := by
  have habs : |((150 : ℚ) - 100) / 100| = 1 / 2 := by
    rw [abs_of_nonneg (by norm_num)]
    norm_num
  simp only [dampenTaken, jumpSample_finalMedian, truthyQ, priceChangePct, habs]
  norm_num [dampenCfg]
  rw [show |(1 : ℚ) / 2| = 1 / 2 from abs_of_nonneg (by norm_num)]
  norm_num

/-- C2 counterexample: with threshold 20%, previous accepted price 100 and
a single valid sample at 150, the dampening guard fires and `getPrice`
returns `midPrice = 100 × 1.2 = 120`, not the claimed
`100 + 0.2 × (150 − 100) = 110`: the code moves the price by 20% of the
*previous price*, not 20% of the way toward the new median. -/
theorem getPriceFetch_dampening_formula_counterexample :
    ((getPriceFetch dampenCfg (some 100) jumpSample 0).output.map
      (fun a => a.midPrice)) = Except.ok 120 ∧
    (120 : ℚ) ≠ 100 + 0.2 * (150 - 100) := by
  constructor
  · have hlen : ¬ (jumpSample.length < dampenCfg.minSources) := by
      norm_num [jumpSample, dampenCfg]
    simp only [getPriceFetch, hlen, if_false, jumpSample_dampens, if_true,
      jumpSample_finalMedian]
    norm_num [createAggregatedPrice, Except.map]
  · norm_num

/-- C2 (amended): when the dampening guard fires, `getPrice` returns a
`midPrice` equal to the previous accepted price times 1.2 if the new
median is above it and times 0.8 if below — a fixed ±20% step of the
previous price in the direction of the new median (direction-preserving
for a positive previous price), not 20% of the gap. -/
theorem getPriceFetch_dampened_price (cfg : PriceAggregatorConfig) (lp : ℚ)
    (samples : List PriceData) (now : ℕ)
    (hmin : cfg.minSources ≤ samples.length)
    (hdamp : dampenTaken cfg (some lp) samples = true) :
    (getPriceFetch cfg (some lp) samples now).output =
      Except.ok (createAggregatedPrice cfg
        (lp * (if finalMedian cfg samples > lp then 1.2 else 0.8))
        (filteredSamples cfg samples) now) ∧
    (0 < lp → lp < finalMedian cfg samples →
      lp < (createAggregatedPrice cfg
        (lp * (if finalMedian cfg samples > lp then 1.2 else 0.8))
        (filteredSamples cfg samples) now).midPrice) ∧
    (0 < lp → finalMedian cfg samples < lp →
      (createAggregatedPrice cfg
        (lp * (if finalMedian cfg samples > lp then 1.2 else 0.8))
        (filteredSamples cfg samples) now).midPrice < lp) := by
  refine ⟨?_, ?_, ?_⟩
  · unfold getPriceFetch
    rw [if_neg (by omega), if_pos hdamp]
    rfl
  · intro h0 hlt
    show lp < lp * (if finalMedian cfg samples > lp then 1.2 else 0.8)
    rw [if_pos hlt]
    nlinarith
  · intro h0 hgt
    show lp * (if finalMedian cfg samples > lp then 1.2 else 0.8) < lp
    rw [if_neg (lt_asymm hgt)]
    nlinarith

/-- C2 witness: the dampening theorem at previous price 100 and a single
sample at 150 under a 20% threshold. -/
theorem getPriceFetch_dampened_price_witness :
    (getPriceFetch dampenCfg (some 100) jumpSample 0).output =
      Except.ok (createAggregatedPrice dampenCfg
        (100 * (if finalMedian dampenCfg jumpSample > 100 then 1.2 else 0.8))
        (filteredSamples dampenCfg jumpSample) 0) ∧
    ((0 : ℚ) < 100 → (100 : ℚ) < finalMedian dampenCfg jumpSample →
      (100 : ℚ) < (createAggregatedPrice dampenCfg
        (100 * (if finalMedian dampenCfg jumpSample > 100 then 1.2 else 0.8))
        (filteredSamples dampenCfg jumpSample) 0).midPrice) ∧
    ((0 : ℚ) < 100 → finalMedian dampenCfg jumpSample < 100 →
      (createAggregatedPrice dampenCfg
        (100 * (if finalMedian dampenCfg jumpSample > 100 then 1.2 else 0.8))
        (filteredSamples dampenCfg jumpSample) 0).midPrice < 100) :=
  getPriceFetch_dampened_price dampenCfg 100 jumpSample 0
    (by norm_num [dampenCfg, jumpSample]) jumpSample_dampens

/-- C6: with fewer than `minSources` valid samples, a truthy previous
accepted price yields the fallback `AggregatedPrice` — mid at the last
price, bid/ask synthesized from the fixed configured spread, exactly one
synthetic source tagged "fallback" with confidence 0.5 ≤ 0.5, and no state
or cache write — while with no previous price `getPrice` throws the
`Insufficient price sources` error. -/
theorem getPriceFetch_insufficient_sources (cfg : PriceAggregatorConfig)
    (samples : List PriceData) (now : ℕ) (lp : ℚ)
    (hmin : samples.length < cfg.minSources) (hlp : 0 < lp) :
    getPriceFetch cfg (some lp) samples now =
      ⟨Except.ok (createFallbackPrice cfg lp now), some lp, none⟩ ∧
    (createFallbackPrice cfg lp now).sources = [⟨lp, "fallback", 0.5, now⟩] ∧
    (createFallbackPrice cfg lp now).confidence ≤ 0.5 ∧
    (createFallbackPrice cfg lp now).midPrice = lp ∧
    (createFallbackPrice cfg lp now).bestBid = lp * (1 - cfg.spreadPercent / 100 / 2) ∧
    (createFallbackPrice cfg lp now).bestAsk = lp * (1 + cfg.spreadPercent / 100 / 2) ∧
    (getPriceFetch cfg none samples now).output =
      Except.error (insufficientMsg samples.length cfg.minSources) := by
  have htr : truthyQ (some lp) = true := by
    simp [truthyQ, ne_of_gt hlp]
  refine ⟨?_, rfl, le_refl _, rfl, rfl, rfl, ?_⟩
  · unfold getPriceFetch
    rw [if_pos hmin, if_pos htr]
    rfl
  · unfold getPriceFetch
    rw [if_pos hmin, if_neg (by simp [truthyQ])]

/-- C6 witness: zero samples against `minSources = 2`, with and without a
previous price of 100. -/
theorem getPriceFetch_insufficient_sources_witness :
    getPriceFetch oracleCfg (some 100) [] 0 =
      ⟨Except.ok (createFallbackPrice oracleCfg 100 0), some 100, none⟩ ∧
    (createFallbackPrice oracleCfg 100 0).sources = [⟨100, "fallback", 0.5, 0⟩] ∧
    (createFallbackPrice oracleCfg 100 0).confidence ≤ 0.5 ∧
    (createFallbackPrice oracleCfg 100 0).midPrice = 100 ∧
    (createFallbackPrice oracleCfg 100 0).bestBid =
      100 * (1 - oracleCfg.spreadPercent / 100 / 2) ∧
    (createFallbackPrice oracleCfg 100 0).bestAsk =
      100 * (1 + oracleCfg.spreadPercent / 100 / 2) ∧
    (getPriceFetch oracleCfg none [] 0).output =
      Except.error (insufficientMsg ([] : List PriceData).length oracleCfg.minSources) :=
  getPriceFetch_insufficient_sources oracleCfg [] 0 100
    (by norm_num [oracleCfg]) (by norm_num)

/-- C10: when the dampening path is taken, `getPrice` returns the dampened
`AggregatedPrice` but leaves the aggregator state — both the stored last
accepted price and the cache — completely unchanged, so the next
non-cached call recomputes the median against the same previous accepted
price. -/
theorem getPrice_dampening_is_stateless (cfg : PriceAggregatorConfig)
    (st : AggregatorState) (samples : List PriceData) (now : ℕ)
    (hmin : cfg.minSources ≤ samples.length)
    (hdamp : dampenTaken cfg st.lastPrice samples = true) :
    (getPrice cfg st true samples now).2 = st ∧
    (getPrice cfg st true samples now).1 =
      Except.ok (createAggregatedPrice cfg
        (st.lastPrice.getD 0 *
          (if finalMedian cfg samples > st.lastPrice.getD 0 then 1.2 else 0.8))
        (filteredSamples cfg samples) now) := by
  have hr : getPriceFetch cfg st.lastPrice samples now =
      { output := Except.ok (createAggregatedPrice cfg
          (st.lastPrice.getD 0 *
            (if finalMedian cfg samples > st.lastPrice.getD 0 then 1.2 else 0.8))
          (filteredSamples cfg samples) now)
        lastPrice := st.lastPrice
        cacheWrite := none } := by
    unfold getPriceFetch
    rw [if_neg (by omega), if_pos hdamp]
  refine ⟨?_, ?_⟩ <;>
    simp only [getPrice, hr, Bool.not_true, Bool.false_eq_true, if_false]

/-- C10 witness: the frame theorem at previous price 100, an empty cache
and a single sample at 150 under a 20% threshold. -/
theorem getPrice_dampening_is_stateless_witness :
    (getPrice dampenCfg ⟨some 100, none⟩ true jumpSample 0).2 = ⟨some 100, none⟩ ∧
    (getPrice dampenCfg ⟨some 100, none⟩ true jumpSample 0).1 =
      Except.ok (createAggregatedPrice dampenCfg
        ((some (100 : ℚ)).getD 0 *
          (if finalMedian dampenCfg jumpSample > (some (100 : ℚ)).getD 0 then 1.2 else 0.8))
        (filteredSamples dampenCfg jumpSample) 0) :=
  getPrice_dampening_is_stateless dampenCfg ⟨some 100, none⟩ jumpSample 0
    (by norm_num [dampenCfg, jumpSample]) jumpSample_dampens

end Oracle
